import Mathlib

/-!
# Verification of the BitcoinPredictor signal-confidence engine and backtesting simulator

Shallow embedding, over exact rationals (ℚ), of the trading/backtesting core of
the repository: `src/server/services/trading-engine.ts`,
`src/server/services/backtesting-engine.ts`,
`src/server/services/trade-execution-engine.ts` and the confidence-update path
of `src/server/routes.ts`.

Modelling conventions:
* JS `number` is modelled as ℚ.  Division by zero yields 0 in ℚ (instead of
  JS `Infinity`/`NaN`); every theorem below only relies on arithmetic in
  regions where the JS computation is NaN-free, except where explicitly noted.
* `Math.sqrt` is not rational, so functions calling it take an explicit
  parameter `sqrtq : ℚ → ℚ` standing for the square-root routine.  Statements
  quantify over it, or instantiate it only at perfect squares (where
  `Math.sqrt` is exact).
* `Math.random()` is threaded explicitly as a `rand : ℚ` argument, and wall
  clock reads (`Date.now()` / `new Date()`) as a `now : ℤ` argument.
* The repository runs as plain JavaScript (types stripped).  A property read
  on an object that does not carry the property yields `undefined`; such reads
  are modelled with `Option` and explicit `js...` comparison helpers in which
  `none` behaves like JS `undefined` (all `<`/`<=`/`>=` comparisons against
  `undefined` are false; `undefined` is falsy).
-/

/-- JS `Math.round`: round half up, `Math.round x = ⌊x + 0.5⌋`. -/
def jsRound (x : ℚ) : ℤ := ⌊x + 1/2⌋

/-- JS `a || b` for numbers: `a` when truthy (nonzero), else `b`.
(`NaN`, the other falsy number, is outside the ℚ model.) -/
def jsOrQ (x y : ℚ) : ℚ := if x = 0 then y else x

/-- JS `a <= b` where `b` may be `undefined` (`none`): false on `undefined`. -/
def jsLeOpt (a : ℚ) (b : Option ℚ) : Bool :=
  match b with
  | some q => decide (a ≤ q)
  | none => false

/-- JS `a >= b` where `a` may be `undefined` (`none`): false on `undefined`. -/
def jsGeOpt (a : Option ℚ) (b : ℚ) : Bool :=
  match a with
  | some q => decide (b ≤ q)
  | none => false

/-- JS `a > b` where `a` may be `undefined` (`none`): false on `undefined`. -/
def jsGtOpt (a : Option ℚ) (b : ℚ) : Bool :=
  match a with
  | some q => decide (b < q)
  | none => false

/-- JS truthiness of a possibly-`undefined` boolean: `undefined` is falsy. -/
def jsTruthy (b : Option Bool) : Bool := b.getD false

/-- JS `Math.min(...l)` over a non-empty spread.  (JS returns `Infinity` on an
empty spread; ℚ cannot represent it, and no verified statement reaches that
case — the sole callers pass non-empty lists.) -/
def jsMinList (l : List ℚ) : ℚ :=
  match l with
  | [] => 0
  | h :: t => t.foldl min h

/-- JS `Math.max(...l)` over a non-empty spread (see `jsMinList` for `[]`). -/
def jsMaxList (l : List ℚ) : ℚ :=
  match l with
  | [] => 0
  | h :: t => t.foldl max h

/-!
## `src/server/services/trading-engine.ts`

The `TradingEngine` class.  Its mutable `weights` field is passed explicitly
(`updateWeights(params.strategy)` replaces all four entries, so the weights in
effect during a backtest are exactly `params.strategy`).
-/

/-- The `weights` record of `TradingEngine` / the `strategy` of a backtest. -/
structure StrategyWeights where
  momentum : ℚ
  volume : ℚ
  trend : ℚ
  volatility : ℚ
deriving DecidableEq

/-- `TradingEngine`'s default weights (trading-engine.ts lines 44-49). -/
def defaultWeights : StrategyWeights :=
  { momentum := 35/100, volume := 30/100, trend := 18/100, volatility := 17/100 }

/-- trading-engine.ts `interface ConfidenceScore` (lines 29-35): the score
produced by `calculateConfidenceScore`.  Note its fields are `overall`,
`momentum`, `volume`, `trend`, `volatility` — it has *no* `longConfidence`,
`shortConfidence` or `momentumScore` properties. -/
structure ConfidenceScoreTE where
  overall : ℚ
  momentum : ℚ
  volume : ℚ
  trend : ℚ
  volatility : ℚ
deriving DecidableEq

/-- `MIN_DATA_POINTS = 5` (trading-engine.ts line 38). -/
def MIN_DATA_POINTS : ℕ := 5

/-- `RSI_PERIOD = 14` (trading-engine.ts line 39). -/
def RSI_PERIOD : ℕ := 14

/-- The adaptive RSI period: `Math.min(RSI_PERIOD, prices.length - 1)`
(trading-engine.ts line 115).  In ℕ, `0 - 1 = 0 < 2`, matching the JS
`min(14, -1) = -1 < 2` early return for empty input. -/
def rsiPeriod (prices : List ℚ) : ℕ := min RSI_PERIOD (prices.length - 1)

/-- The price changes `prices[i] - prices[i-1]` for `i = 1 .. period`
(trading-engine.ts lines 121-125). -/
def rsiChanges (prices : List ℚ) : List ℚ :=
  (List.range (rsiPeriod prices)).map (fun i => prices.getD (i+1) 0 - prices.getD i 0)

/-- `avgGain = gains / period` where `gains` accumulates positive changes
(trading-engine.ts lines 121-127). -/
def rsiAvgGain (prices : List ℚ) : ℚ :=
  ((rsiChanges prices).map (fun c => if 0 < c then c else 0)).sum / (rsiPeriod prices : ℚ)

/-- `avgLoss = losses / period` where `losses` accumulates `|change|` for
non-positive changes (trading-engine.ts lines 121-128). -/
def rsiAvgLoss (prices : List ℚ) : ℚ :=
  ((rsiChanges prices).map (fun c => if 0 < c then 0 else |c|)).sum / (rsiPeriod prices : ℚ)

/-- `calculateRSI` (trading-engine.ts lines 114-134): adaptive period over the
*initial* `period` deltas; neutral 50 when fewer than 2 deltas are available;
100 when the average loss is 0; otherwise `100 - 100/(1+rs)`. -/
def calculateRSI (prices : List ℚ) : ℚ :=
  if rsiPeriod prices < 2 then 50
  else if rsiAvgLoss prices = 0 then 100
  else 100 - 100 / (1 + rsiAvgGain prices / rsiAvgLoss prices)

/-- `calculateSMA` (trading-engine.ts lines 164-169).  `period` is a ℕ since
every call site passes `Math.min(n, prices.length)`; the JS guard
`period <= 0` is `period = 0` in ℕ.  The out-of-range fallback
`prices[prices.length - 1]` is `undefined` on `[]`, modelled as 0
(unreached by the verified statements). -/
def calculateSMA (prices : List ℚ) (period : ℕ) : ℚ :=
  if period = 0 ∨ prices.length < period then prices.getLastD 0
  else
    let s := prices.drop (prices.length - period)
    s.sum / (s.length : ℚ)

/-- `calculateEMA` (trading-engine.ts lines 174-185): seeded with `prices[0]`,
then folds the recurrence over *all* remaining prices using
`multiplier = 2/(period+1)`. -/
def calculateEMA (prices : List ℚ) (period : ℕ) : ℚ :=
  if period = 0 ∨ prices.length < period then prices.getLastD 0
  else
    let multiplier : ℚ := 2 / ((period : ℚ) + 1)
    prices.tail.foldl (fun ema price => price * multiplier + ema * (1 - multiplier))
      (prices.headD 0)

/-- `calculateMACD` (trading-engine.ts lines 139-159).  The JS
`Math.floor(prices.length * 0.3)` is modelled as the exact rational floor
`⌊len · 3/10⌋` (the binary double `0.3` differs from `3/10` by < 2⁻⁵⁴; the
discrepancy never changes any verified statement, which are independent of
the MACD value). -/
structure MACDResult where
  value : ℚ
  signal : ℚ
  histogram : ℚ
deriving DecidableEq

def calculateMACD (prices : List ℚ) : MACDResult :=
  let fastPeriod := min 12 (prices.length * 3 / 10)
  let slowPeriod := min 26 (prices.length * 3 / 5)
  if fastPeriod < 2 ∨ slowPeriod < 2 then { value := 0, signal := 0, histogram := 0 }
  else
    let emaFast := calculateEMA prices fastPeriod
    let emaSlow := calculateEMA prices slowPeriod
    let macdValue := emaFast - emaSlow
    let signalValue := macdValue * (4/5)
    { value := macdValue, signal := signalValue, histogram := macdValue - signalValue }

/-- `findSupport` (trading-engine.ts lines 190-193): min of last ≤ 20 prices. -/
def findSupport (prices : List ℚ) : ℚ :=
  jsMinList (prices.drop (prices.length - min 20 prices.length))

/-- `findResistance` (trading-engine.ts lines 198-201): max of last ≤ 20 prices. -/
def findResistance (prices : List ℚ) : ℚ :=
  jsMaxList (prices.drop (prices.length - min 20 prices.length))

/-- The `movingAverages` sub-record of `TechnicalIndicators`. -/
structure MovingAverages where
  sma20 : ℚ
  sma50 : ℚ
  ema12 : ℚ
  ema26 : ℚ
deriving DecidableEq

/-- trading-engine.ts `interface TechnicalIndicators` (lines 1-17); the
optional `volume` field is never set by the engine and is omitted. -/
structure TechnicalIndicators where
  rsi : ℚ
  macd : MACDResult
  movingAverages : MovingAverages
  support : ℚ
  resistance : ℚ
deriving DecidableEq

/-- A price-data point as consumed by `calculateTechnicalIndicators`:
a `timestamp` and a `close` (the engine maps `d.close || d.price`; the model
carries `close` directly). -/
structure PricePoint where
  timestamp : ℤ
  close : ℚ
deriving DecidableEq

/-- `generateMockIndicators` (trading-engine.ts lines 89-109): fabricated
indicator values used when data is insufficient.  `rand` is the
`Math.random()` draw; `baseVariation = rand * 0.1 - 0.05`.  The JS fallback
chain `priceData?.[len-1]?.close || priceData?.[len-1]?.price || 65000`
falls through to 65000 when the last close is absent or falsy. -/
def generateMockIndicators (priceData : List PricePoint) (rand : ℚ) : TechnicalIndicators :=
  let currentPrice : ℚ :=
    match priceData.getLast? with
    | some p => jsOrQ p.close 65000
    | none => 65000
  let baseVariation := rand * (1/10) - 1/20
  { rsi := max 10 (min 90 (50 + baseVariation * 100))
    macd :=
      { value := baseVariation * 1000
        signal := baseVariation * (4/5) * 1000
        histogram := baseVariation * (1/5) * 1000 }
    movingAverages :=
      { sma20 := currentPrice * (1 + baseVariation * (1/50))
        sma50 := currentPrice * (1 + baseVariation * (1/20))
        ema12 := currentPrice * (1 + baseVariation * (1/100))
        ema26 := currentPrice * (1 + baseVariation * (3/100)) }
    support := currentPrice * (19/20)
    resistance := currentPrice * (21/20) }

/-- Insertion of one element into a timestamp-sorted list (used to model the
JS `sort` by ascending timestamp). -/
def insertByTimestamp (p : PricePoint) : List PricePoint → List PricePoint
  | [] => [p]
  | q :: rest => if p.timestamp ≤ q.timestamp then p :: q :: rest else q :: insertByTimestamp p rest

/-- The chronological sort performed at trading-engine.ts lines 61-63
(`[...priceData].sort((a, b) => ta - tb)`): a stable ascending sort by
timestamp. -/
def sortByTimestamp (priceData : List PricePoint) : List PricePoint :=
  priceData.foldr insertByTimestamp []

/-- `calculateTechnicalIndicators` (trading-engine.ts lines 54-84).
Its TS type is `TechnicalIndicators | null`, hence the `Option`, but *both*
branches return a value: fewer than `MIN_DATA_POINTS = 5` points yields the
randomized mock indicators — not an error.  (The `try/catch` around the main
branch is vacuous in the model: every operation is total.) -/
def calculateTechnicalIndicators (priceData : List PricePoint) (rand : ℚ) :
    Option TechnicalIndicators :=
  if priceData.length < MIN_DATA_POINTS then some (generateMockIndicators priceData rand)
  else
    let sortedData := sortByTimestamp priceData
    let prices := sortedData.map (·.close)
    some
      { rsi := calculateRSI prices
        macd := calculateMACD prices
        movingAverages :=
          { sma20 := calculateSMA prices (min 20 prices.length)
            sma50 := calculateSMA prices (min 50 prices.length)
            ema12 := calculateEMA prices (min 12 prices.length)
            ema26 := calculateEMA prices (min 26 prices.length) }
        support := findSupport prices
        resistance := findResistance prices }

/-- `calculateVolatility` (trading-engine.ts lines 248-258): population
standard deviation over mean, rescaled and clamped into `[0.1, 0.9]`. -/
def calculateVolatility (sqrtq : ℚ → ℚ) (prices : List ℚ) : ℚ :=
  if prices.length < 2 then 1/2
  else
    let mean := prices.sum / (prices.length : ℚ)
    let variance := (prices.map (fun price => (price - mean)^2)).sum / (prices.length : ℚ)
    let stdDev := sqrtq variance
    let volatility := stdDev / mean
    max (1/10) (min (9/10) (1 - min (volatility * 10) (4/5)))

/-- `calculateConfidenceScore` (trading-engine.ts lines 204-246).  Fewer than
10 prices returns the constant all-0.2 score; otherwise the four component
scores are combined with the weight vector and the overall score is clamped
by `Math.min(0.95, Math.max(0.05, overall))`. -/
def calculateConfidenceScore (weights : StrategyWeights) (sqrtq : ℚ → ℚ)
    (prices volumes : List ℚ) : ConfidenceScoreTE :=
  if prices.length < 10 then
    { overall := 1/5, momentum := 1/5, volume := 1/5, trend := 1/5, volatility := 1/5 }
  else
    let rsi := calculateRSI prices
    let momentumScore : ℚ := if 70 < rsi then 4/5 else if rsi < 30 then 1/5 else 1/2
    let sma20 := calculateSMA prices (min 20 prices.length)
    let sma50 := calculateSMA prices (min 50 prices.length)
    let trendScore : ℚ := if sma50 < sma20 then 7/10 else 3/10
    let avgVolume : ℚ := if volumes.length ≠ 0 then volumes.sum / (volumes.length : ℚ) else 0
    let recentVolume : ℚ := volumes.getLastD 0
    let volumeScore : ℚ := if avgVolume < recentVolume then 3/5 else 2/5
    let volatilityScore := calculateVolatility sqrtq prices
    let overall := momentumScore * weights.momentum + trendScore * weights.trend
      + volumeScore * weights.volume + volatilityScore * weights.volatility
    { overall := min (19/20) (max (1/20) overall)
      momentum := momentumScore
      volume := volumeScore
      trend := trendScore
      volatility := volatilityScore }

/-- The constant score returned for fewer than 10 price points. -/
def lowDataConfidenceScore : ConfidenceScoreTE :=
  { overall := 1/5, momentum := 1/5, volume := 1/5, trend := 1/5, volatility := 1/5 }

/-!
## Signals (`trading-engine.ts` lines 19-27, 260-301) and the route-level
confidence mapping (`routes.ts` lines 74-84)
-/

/-- `'BUY' | 'SELL' | 'HOLD'`. -/
inductive SignalType
  | BUY
  | SELL
  | HOLD
deriving DecidableEq

/-- trading-engine.ts `interface MarketSignal` (lines 19-27): the value
returned by `TradingEngine.generateTradingSignal`.  It has *no* `isActive`,
`signalType`, `stopLoss` or `takeProfit` properties.  The `metadata` payload
(a copy of the four component scores) is never read by the verified paths and
is omitted. -/
structure MarketSignal where
  type : SignalType
  direction : String
  strength : ℚ
  confidence : ℚ
  reason : String
  timestamp : ℤ
deriving DecidableEq

/-- `enhanceWithML` (trading-engine.ts lines 260-266): multiplies the overall
score by 1.1, capped at 0.95.  The `marketAnalysis` argument is ignored by the
implementation, so it is typed as an opaque-to-the-function parameter `α`. -/
def enhanceWithML {α : Type} (confidence : ConfidenceScoreTE) (_marketAnalysis : α) :
    ConfidenceScoreTE :=
  { confidence with overall := min (19/20) (confidence.overall * (11/10)) }

/-- `generateTradingSignal` (trading-engine.ts lines 268-301): BUY/LONG when
`overall > 0.3`, SELL/SHORT when `overall < 0.25`, otherwise `null`.
`now` is the `new Date()` wall-clock read; `currentPrice` is accepted but
never used by the implementation. -/
def generateTradingSignal (confidence : ConfidenceScoreTE) (_currentPrice : ℚ) (now : ℤ) :
    Option MarketSignal :=
  if 3/10 < confidence.overall then
    some
      { type := SignalType.BUY
        direction := "LONG"
        strength := confidence.overall
        confidence := (jsRound (confidence.overall * 100) : ℚ)
        reason := "Positive confidence signal"
        timestamp := now }
  else if confidence.overall < 1/4 then
    some
      { type := SignalType.SELL
        direction := "SHORT"
        strength := 1 - confidence.overall
        confidence := (jsRound ((1 - confidence.overall) * 100) : ℚ)
        reason := "Negative confidence signal"
        timestamp := now }
  else none

/-- shared/schema.ts `interface ConfidenceScore` (lines 150-158): the record
stored by `storage.updateCurrentConfidence` and broadcast to clients. -/
structure StoredConfidence where
  longConfidence : ℚ
  shortConfidence : ℚ
  momentumScore : ℚ
  volumeScore : ℚ
  trendScore : ℚ
  volatilityScore : ℚ
  timestamp : ℤ
deriving DecidableEq

/-- The confidence record built by the 5-second interval in
`registerRoutes` (routes.ts lines 76-84): `longConfidence` is set to the raw
`confidence.overall` (a value on the 0-1 scale) and `shortConfidence` to
`1 - confidence.overall`. -/
def storedConfidenceUpdate (confidence : ConfidenceScoreTE) (now : ℤ) : StoredConfidence :=
  { longConfidence := confidence.overall
    shortConfidence := 1 - confidence.overall
    momentumScore := confidence.momentum
    volumeScore := confidence.volume
    trendScore := confidence.trend
    volatilityScore := confidence.volatility
    timestamp := now }

/-!
## `src/server/services/backtesting-engine.ts`

The repository file contains two revisions of the engine; the second
(lines 453-909) is embedded in full, together with `generateEntrySignal`
from the first revision (lines 294-341), which claim C1 names.
-/

/-- `'LONG' | 'SHORT'`. -/
inductive Side
  | LONG
  | SHORT
deriving DecidableEq

/-- A `PriceData` candle (shared/schema.ts lines 12-22; `id`, `symbol`,
`timeframe` are strings never read by the engine and are omitted).
`open` is a Lean keyword, hence the field name `open_`. -/
structure Candle where
  timestamp : ℤ
  open_ : ℚ
  high : ℚ
  low : ℚ
  close : ℚ
  volume : ℚ
deriving DecidableEq

/-- The backtest parameters (backtesting-engine.ts `BacktestParams...`,
schema `backtestParamsSchema`): the fields the simulation core reads.
`symbol`/`timeframe`/dates only select the candle data, which the model
receives directly. -/
structure BTParams where
  initialCapital : ℚ
  riskPerTrade : ℚ
  maxPositions : ℕ
  stopLossPercent : ℚ
  takeProfitPercent : ℚ
  strategy : StrategyWeights
deriving DecidableEq

/-- An open position (backtesting-engine.ts lines 535-543).  In the running
JavaScript the second revision pushes `stopLoss: tradingSignal.stopLoss`,
`takeProfit: tradingSignal.takeProfit` and
`side: tradingSignal.signalType as 'LONG' | 'SHORT'` where `tradingSignal` is
a `MarketSignal` carrying none of those properties, so all three reads give
`undefined`: the fields are `Option`s, `none` = `undefined`.  The stored
`signal` object is never read back and is omitted. -/
structure Position where
  entryTime : ℤ
  entryPrice : ℚ
  side : Option Side
  quantity : ℚ
  stopLoss : Option ℚ
  takeProfit : Option ℚ
deriving DecidableEq

/-- `'TAKE_PROFIT' | 'STOP_LOSS' | 'SIGNAL_EXIT' | 'END_OF_DATA'`
(`SIGNAL_EXIT` is declared but never produced). -/
inductive ExitReason
  | TAKE_PROFIT
  | STOP_LOSS
  | SIGNAL_EXIT
  | END_OF_DATA
deriving DecidableEq

/-- The value returned by `checkExitConditions` when an exit fires. -/
structure ExitResult where
  exitPrice : ℚ
  pnl : ℚ
  reason : ExitReason
deriving DecidableEq

/-- `interface BacktestTrade` (backtesting-engine.ts lines 470-480). -/
structure BacktestTrade where
  entryTime : ℤ
  exitTime : ℤ
  entryPrice : ℚ
  exitPrice : ℚ
  side : Option Side
  quantity : ℚ
  pnl : ℚ
  pnlPercent : ℚ
  reason : ExitReason
deriving DecidableEq

/-- `interface BacktestStats` (backtesting-engine.ts lines 482-495). -/
structure BacktestStats where
  totalTrades : ℕ
  winningTrades : ℕ
  losingTrades : ℕ
  winRate : ℚ
  avgWin : ℚ
  avgLoss : ℚ
  profitFactor : ℚ
  sharpeRatio : ℚ
  maxDrawdown : ℚ
  totalReturn : ℚ
  calmarRatio : ℚ
  averageHoldingPeriod : ℚ
deriving DecidableEq

/-- An equity-curve sample (backtesting-engine.ts line 545). -/
structure EquityPoint where
  time : ℤ
  equity : ℚ
  drawdown : ℚ
deriving DecidableEq

/-- `checkExitConditions` (backtesting-engine.ts lines 810-832), against the
candle's close.  JS comparisons with an `undefined` stop/take level are false
(`jsLeOpt`/`jsGeOpt`-style), and `position.side === 'LONG'` is false for an
`undefined` side, which therefore takes the SHORT branch, exactly as the
`else` in the source. -/
def checkExitConditions (position : Position) (currentCandle : Candle) : Option ExitResult :=
  let currentPrice := currentCandle.close
  if position.side = some Side.LONG then
    match position.stopLoss with
    | some sl =>
      if currentPrice ≤ sl then
        some { exitPrice := sl, pnl := (sl - position.entryPrice) * position.quantity,
               reason := ExitReason.STOP_LOSS }
      else
        match position.takeProfit with
        | some tp =>
          if tp ≤ currentPrice then
            some { exitPrice := tp, pnl := (tp - position.entryPrice) * position.quantity,
                   reason := ExitReason.TAKE_PROFIT }
          else none
        | none => none
    | none =>
      match position.takeProfit with
      | some tp =>
        if tp ≤ currentPrice then
          some { exitPrice := tp, pnl := (tp - position.entryPrice) * position.quantity,
                 reason := ExitReason.TAKE_PROFIT }
        else none
      | none => none
  else
    match position.stopLoss with
    | some sl =>
      if sl ≤ currentPrice then
        some { exitPrice := sl, pnl := (position.entryPrice - sl) * position.quantity,
               reason := ExitReason.STOP_LOSS }
      else
        match position.takeProfit with
        | some tp =>
          if currentPrice ≤ tp then
            some { exitPrice := tp, pnl := (position.entryPrice - tp) * position.quantity,
                   reason := ExitReason.TAKE_PROFIT }
          else none
        | none => none
    | none =>
      match position.takeProfit with
      | some tp =>
        if currentPrice ≤ tp then
          some { exitPrice := tp, pnl := (position.entryPrice - tp) * position.quantity,
                 reason := ExitReason.TAKE_PROFIT }
        else none
      | none => none

/-- `calculatePositionPnL` (backtesting-engine.ts lines 840-846); an
`undefined` side takes the SHORT branch like the source's `else`. -/
def calculatePositionPnL (position : Position) (currentPrice : ℚ) : ℚ :=
  if position.side = some Side.LONG then
    (currentPrice - position.entryPrice) * position.quantity
  else
    (position.entryPrice - currentPrice) * position.quantity

/-- `calculateUnrealizedPnL` (backtesting-engine.ts lines 834-838). -/
def calculateUnrealizedPnL (positions : List Position) (currentPrice : ℚ) : ℚ :=
  (positions.map (fun position => calculatePositionPnL position currentPrice)).sum

/-- `calculatePositionSize` of the backtesting engine (lines 804-808):
`riskAmount / stopLossDistance` with `stopLossDistance = price · slp/100`.
Note: no minimum-size floor. -/
def calculatePositionSize (capital price riskPercent stopLossPercent : ℚ) : ℚ :=
  let riskAmount := capital * (riskPercent / 100)
  let stopLossDistance := price * (stopLossPercent / 100)
  riskAmount / stopLossDistance

/-- `calculatePositionSize` of `TradeExecutionEngine`
(trade-execution-engine.ts lines 159-174): `riskAmount / |entry - stop|`,
floored at `minPositionValue / entryPrice` with `minPositionValue = 10`. -/
def calculatePositionSizeExec (totalCapital riskPerTrade entryPrice stopLoss : ℚ) : ℚ :=
  if stopLoss = 0 then 0
  else
    let riskAmount := totalCapital * (riskPerTrade / 100)
    let riskPerUnit := |entryPrice - stopLoss|
    if riskPerUnit = 0 then 0
    else
      let positionSize := riskAmount / riskPerUnit
      let minPositionValue : ℚ := 10
      let minPositionSize := minPositionValue / entryPrice
      max positionSize minPositionSize

/-- The dynamic shape `generateEntrySignal` (first-revision
backtesting-engine.ts, lines 294-341, parameter `confidence: any`) reads from
its argument: `longConfidence`, `shortConfidence` and the four `...Score`
properties.  Each is `Option ℚ` because the value actually passed at the call
site — the `TradingEngine` confidence score — carries none of these
properties (its fields are `overall`, `momentum`, `volume`, `trend`,
`volatility`), so in the running JavaScript each read yields `undefined`. -/
structure DynConfidence where
  longConfidence : Option ℚ
  shortConfidence : Option ℚ
  momentumScore : Option ℚ
  volumeScore : Option ℚ
  trendScore : Option ℚ
  volatilityScore : Option ℚ
deriving DecidableEq

/-- The `TradingEngine` score viewed through `generateEntrySignal`'s property
reads: every read property is absent, hence `undefined`. -/
def confidenceScoreTEAsDyn (_c : ConfidenceScoreTE) : DynConfidence :=
  { longConfidence := none, shortConfidence := none, momentumScore := none,
    volumeScore := none, trendScore := none, volatilityScore := none }

/-- The `TradingSignal` object built by `generateEntrySignal` (the `id` and
string fields are omitted; `isActive` is always set `true` there). -/
structure EntrySignal where
  timestamp : ℤ
  signalType : Side
  confidence : Option ℚ
  price : ℚ
  stopLoss : ℚ
  takeProfit : ℚ
  isActive : Bool
  momentumScore : Option ℚ
  volumeScore : Option ℚ
  trendScore : Option ℚ
  volatilityScore : Option ℚ
deriving DecidableEq

/-- `generateEntrySignal` (first-revision backtesting-engine.ts lines
294-341): LONG when `confidence.longConfidence > 65` (strictly), otherwise
SHORT when `confidence.shortConfidence > 65`, otherwise `null`; the JS `>`
against an `undefined` operand is false. -/
def generateEntrySignal (confidence : DynConfidence) (candle : Candle) (params : BTParams) :
    Option (Side × EntrySignal) :=
  if jsGtOpt confidence.longConfidence 65 then
    some (Side.LONG,
      { timestamp := candle.timestamp
        signalType := Side.LONG
        confidence := confidence.longConfidence
        price := candle.close
        stopLoss := candle.close * (1 - params.stopLossPercent / 100)
        takeProfit := candle.close * (1 + params.takeProfitPercent / 100)
        isActive := true
        momentumScore := confidence.momentumScore
        volumeScore := confidence.volumeScore
        trendScore := confidence.trendScore
        volatilityScore := confidence.volatilityScore })
  else if jsGtOpt confidence.shortConfidence 65 then
    some (Side.SHORT,
      { timestamp := candle.timestamp
        signalType := Side.SHORT
        confidence := confidence.shortConfidence
        price := candle.close
        stopLoss := candle.close * (1 + params.stopLossPercent / 100)
        takeProfit := candle.close * (1 - params.takeProfitPercent / 100)
        isActive := true
        momentumScore := confidence.momentumScore
        volumeScore := confidence.volumeScore
        trendScore := confidence.trendScore
        volatilityScore := confidence.volatilityScore })
  else none

/-- The property reads `shouldEnterTradeFromSignal` performs on its argument:
`isActive` and `confidence`, possibly-`undefined`. -/
structure TradingSignalView where
  isActive : Option Bool
  confidence : Option ℚ
deriving DecidableEq

/-- The `MarketSignal` returned by `TradingEngine.generateTradingSignal`
viewed through those reads: `isActive` is not a property of `MarketSignal`
(→ `undefined`), while `confidence` is present. -/
def marketSignalAsTradingSignal (s : MarketSignal) : TradingSignalView :=
  { isActive := none, confidence := some s.confidence }

/-- `shouldEnterTradeFromSignal` (backtesting-engine.ts lines 798-802):
`signal.isActive && signal.confidence >= 0.65`.  A JS `&&` whose left operand
is `undefined` short-circuits to a falsy value. -/
def shouldEnterTradeFromSignal (signal : TradingSignalView) : Bool :=
  jsTruthy signal.isActive && jsGeOpt signal.confidence (13/20)

/-- Mutable state of one `runBacktest` invocation (backtesting-engine.ts
lines 530-545): `capital`, `peak`, `maxDrawdown`, the open positions, the
closed trades, the equity curve.  (The `equity` local is recomputed from
`capital` before every use and needs no slot.) -/
structure BTState where
  capital : ℚ
  peak : ℚ
  maxDrawdown : ℚ
  openPositions : List Position
  closedTrades : List BacktestTrade
  equityCurve : List EquityPoint
deriving DecidableEq

/-- The `BacktestTrade` record pushed when a position closes
(backtesting-engine.ts lines 580-590 and 658-668). -/
def mkClosedTrade (position : Position) (exitTime : ℤ) (exitPrice pnl : ℚ)
    (reason : ExitReason) : BacktestTrade :=
  { entryTime := position.entryTime
    exitTime := exitTime
    entryPrice := position.entryPrice
    exitPrice := exitPrice
    side := position.side
    quantity := position.quantity
    pnl := pnl
    pnlPercent := pnl / (position.quantity * position.entryPrice) * 100
    reason := reason }

/-- The exit sweep (backtesting-engine.ts lines 574-599): every open position
is checked against `checkExitConditions`; closed ones are removed and their
trades recorded.  The source iterates `j` from the *end* of the array, so the
trade of a later-opened position is recorded first; the right-fold below
reproduces that order. -/
def processExits (positions : List Position) (currentCandle : Candle) :
    List Position × List BacktestTrade :=
  match positions with
  | [] => ([], [])
  | position :: rest =>
    let restResult := processExits rest currentCandle
    match checkExitConditions position currentCandle with
    | some exitResult =>
      (restResult.1,
       restResult.2 ++ [mkClosedTrade position currentCandle.timestamp
         exitResult.exitPrice exitResult.pnl exitResult.reason])
    | none => (position :: restResult.1, restResult.2)

/-- The 201-candle trailing window `historicalData.slice(i - 200, i + 1)`
(backtesting-engine.ts line 555). -/
def btWindow (data : List Candle) (i : ℕ) : List Candle :=
  (data.drop (i - 200)).take 201

/-- `historicalData[i]`, the loop's `currentCandle` (line 552). -/
def btCandleAt (data : List Candle) (i : ℕ) : Candle :=
  data.getD i { timestamp := 0, open_ := 0, high := 0, low := 0, close := 0, volume := 0 }

/-- The window's closes (`prices`, line 556). -/
def btPrices (data : List Candle) (i : ℕ) : List ℚ :=
  (btWindow data i).map (·.close)

/-- The window's volumes (`volumes`, line 557). -/
def btVolumes (data : List Candle) (i : ℕ) : List ℚ :=
  (btWindow data i).map (·.volume)

/-- The entry block (backtesting-engine.ts lines 601-636): when a slot is
free, run confidence → ML enhancement → `generateTradingSignal` →
`shouldEnterTradeFromSignal`, and push the new position if the computed size
is positive (the source's local consts are inlined).  `analyze` is the
external `mlPredictor.analyzeMarket` collaborator (network/cache/clock
dependent), whose result the pipeline feeds to `enhanceWithML` — which
ignores it.  The pushed `side`, `stopLoss` and `takeProfit` are the
`signalType`/`stopLoss`/`takeProfit` property reads on the `MarketSignal`,
all absent hence `undefined` (`none`). -/
def backtestEntry {α : Type} (params : BTParams) (sqrtq : ℚ → ℚ)
    (analyze : List ℚ → List ℚ → ℚ → α) (now : ℤ)
    (prices volumes : List ℚ) (currentCandle : Candle) (capital : ℚ)
    (remaining : List Position) : List Position :=
  if remaining.length < params.maxPositions then
    match generateTradingSignal
        (enhanceWithML (calculateConfidenceScore params.strategy sqrtq prices volumes)
          (analyze prices volumes currentCandle.close))
        currentCandle.close now with
    | some tradingSignal =>
      if shouldEnterTradeFromSignal (marketSignalAsTradingSignal tradingSignal) then
        if 0 < calculatePositionSize capital currentCandle.close params.riskPerTrade
            params.stopLossPercent then
          remaining ++ [{ entryTime := currentCandle.timestamp
                          entryPrice := currentCandle.close
                          side := none
                          quantity := calculatePositionSize capital currentCandle.close
                            params.riskPerTrade params.stopLossPercent
                          stopLoss := none
                          takeProfit := none }]
        else remaining
      else remaining
    | none => remaining
  else remaining

/-- The tail of one loop iteration (backtesting-engine.ts lines 638-651),
after exits and entries produced `capital`, the `afterEntry` position list
and the `newTrades` of this candle: recompute equity, advance the peak,
the running max drawdown, and sample the equity curve when `i % 24 == 0` or
at the last candle (`dataLen` is `historicalData.length`). -/
def backtestStepUpdate (st : BTState) (currentCandle : Candle) (i dataLen : ℕ)
    (capital : ℚ) (afterEntry : List Position) (newTrades : List BacktestTrade) : BTState :=
  let equity := capital + calculateUnrealizedPnL afterEntry currentCandle.close
  let peak := if st.peak < equity then equity else st.peak
  let currentDrawdown := (peak - equity) / peak
  { capital := capital
    peak := peak
    maxDrawdown := if st.maxDrawdown < currentDrawdown then currentDrawdown
      else st.maxDrawdown
    openPositions := afterEntry
    closedTrades := st.closedTrades ++ newTrades
    equityCurve :=
      if i % 24 = 0 ∨ i = dataLen - 1 then
        st.equityCurve ++ [{ time := currentCandle.timestamp, equity := equity,
                             drawdown := currentDrawdown }]
      else st.equityCurve }

/-- One iteration of the per-candle loop (backtesting-engine.ts lines
551-652), at absolute candle index `i`: slice the trailing 201-candle window,
skip if short (`continue`), process exits first (updating `capital` by the
realized pnl), then consider one entry, then update equity/peak/drawdown and
the equity curve. -/
def backtestStep {α : Type} (params : BTParams) (data : List Candle) (sqrtq : ℚ → ℚ)
    (analyze : List ℚ → List ℚ → ℚ → α) (now : ℤ) (st : BTState) (i : ℕ) : BTState :=
  if (btPrices data i).length < 201 then st
  else
    backtestStepUpdate st (btCandleAt data i) i data.length
      (st.capital + ((processExits st.openPositions (btCandleAt data i)).2.map (·.pnl)).sum)
      (backtestEntry params sqrtq analyze now (btPrices data i) (btVolumes data i)
        (btCandleAt data i)
        (st.capital
          + ((processExits st.openPositions (btCandleAt data i)).2.map (·.pnl)).sum)
        (processExits st.openPositions (btCandleAt data i)).1)
      (processExits st.openPositions (btCandleAt data i)).2

/-- `calculateBacktestStats` (backtesting-engine.ts lines 848-908).  An empty
trade list takes the early return of the all-zero record; otherwise win/loss
aggregates, total return, max drawdown over the equity curve, a simplified
Sharpe ratio annualized by `√(365·24)`, and the mean holding period in hours
(timestamps are milliseconds). -/
def calculateBacktestStats (sqrtq : ℚ → ℚ) (trades : List BacktestTrade)
    (initialCapital finalCapital : ℚ) (equityCurve : List EquityPoint) : BacktestStats :=
  if trades.length = 0 then
    { totalTrades := 0, winningTrades := 0, losingTrades := 0, winRate := 0, avgWin := 0,
      avgLoss := 0, profitFactor := 0, sharpeRatio := 0, maxDrawdown := 0, totalReturn := 0,
      calmarRatio := 0, averageHoldingPeriod := 0 }
  else
    let winningTrades := trades.filter (fun t => 0 < t.pnl)
    let losingTrades := trades.filter (fun t => t.pnl < 0)
    let totalWin := (winningTrades.map (·.pnl)).sum
    let totalLoss := |(losingTrades.map (·.pnl)).sum|
    let avgWin := if winningTrades.length ≠ 0 then totalWin / (winningTrades.length : ℚ) else 0
    let avgLoss := if losingTrades.length ≠ 0 then totalLoss / (losingTrades.length : ℚ) else 0
    let totalReturn := (finalCapital - initialCapital) / initialCapital * 100
    let maxDrawdown := jsMaxList (equityCurve.map (·.drawdown)) * 100
    let returns := ((List.range equityCurve.length).map (fun i =>
      if i = 0 then 0
      else ((equityCurve.getD i { time := 0, equity := 0, drawdown := 0 }).equity
        - (equityCurve.getD (i-1) { time := 0, equity := 0, drawdown := 0 }).equity)
        / (equityCurve.getD (i-1) { time := 0, equity := 0, drawdown := 0 }).equity)).drop 1
    let avgReturn := returns.sum / (returns.length : ℚ)
    let returnStdDev := sqrtq ((returns.map (fun r => (r - avgReturn)^2)).sum
      / (returns.length : ℚ))
    let sharpeRatio := if 0 < returnStdDev then avgReturn / returnStdDev * sqrtq (365 * 24)
      else 0
    let holdingPeriods := trades.map (fun t =>
      ((t.exitTime - t.entryTime : ℤ) : ℚ) / (1000 * 60 * 60))
    let averageHoldingPeriod := holdingPeriods.sum / (holdingPeriods.length : ℚ)
    { totalTrades := trades.length
      winningTrades := winningTrades.length
      losingTrades := losingTrades.length
      winRate := (winningTrades.length : ℚ) / (trades.length : ℚ) * 100
      avgWin := avgWin
      avgLoss := avgLoss
      profitFactor := if 0 < totalLoss then totalWin / totalLoss else 0
      sharpeRatio := sharpeRatio
      maxDrawdown := maxDrawdown
      totalReturn := totalReturn
      calmarRatio := if 0 < maxDrawdown then totalReturn / maxDrawdown else 0
      averageHoldingPeriod := averageHoldingPeriod }

/-- The initial backtest state (backtesting-engine.ts lines 531-545). -/
def initialBacktestState (params : BTParams) : BTState :=
  { capital := params.initialCapital
    peak := params.initialCapital
    maxDrawdown := 0
    openPositions := []
    closedTrades := []
    equityCurve := [] }

/-- The candle indices visited by the loop: `i = 200 .. data.length - 1`. -/
def backtestIndices (data : List Candle) : List ℕ :=
  List.range' 200 (data.length - 200)

/-- The minimum-data rejection message (backtesting-engine.ts lines 512-522,
abridged). -/
def insufficientDataMessage : String :=
  "Insufficient historical data for backtesting. Required: 250 data points."

/-- The result tuple handed back by `runBacktest` (trades, stats, equity
curve, final capital). -/
structure BacktestRun where
  trades : List BacktestTrade
  stats : BacktestStats
  equityCurve : List EquityPoint
  finalCapital : ℚ
deriving DecidableEq

/-- `runBacktest` (second-revision backtesting-engine.ts lines 506-700),
minus the external storage write of the result row: reject fewer than 250
candles, fold the per-candle step over indices 200.., force-close the
remaining positions at the final candle with reason `END_OF_DATA`, and
aggregate the statistics. -/
def runBacktest {α : Type} (params : BTParams) (historicalData : List Candle)
    (sqrtq : ℚ → ℚ) (analyze : List ℚ → List ℚ → ℚ → α) (now : ℤ) :
    Except String BacktestRun :=
  if historicalData.length < 250 then Except.error insufficientDataMessage
  else
    let finalState := (backtestIndices historicalData).foldl
      (backtestStep params historicalData sqrtq analyze now) (initialBacktestState params)
    let finalPrice := historicalData.getLastD { timestamp := 0, open_ := 0, high := 0,
                                                low := 0, close := 0, volume := 0 }
    let endTrades := finalState.openPositions.map (fun position =>
      mkClosedTrade position finalPrice.timestamp finalPrice.close
        (calculatePositionPnL position finalPrice.close) ExitReason.END_OF_DATA)
    let capital := finalState.capital + (endTrades.map (·.pnl)).sum
    let closedTrades := finalState.closedTrades ++ endTrades
    let stats := calculateBacktestStats sqrtq closedTrades params.initialCapital capital
      finalState.equityCurve
    Except.ok { trades := closedTrades
                stats := stats
                equityCurve := finalState.equityCurve
                finalCapital := capital }

/-- Modelled from the spec: the *trailing*-window average loss that §4.1/§8
of the specification ascribe to the RSI ("Wilder-style average gain/loss over
the trailing 14 deltas") — the mean of `|negative delta|` over the *last*
`min(14, n-1)` consecutive price deltas.  Kept for comparison with the
source's `rsiAvgLoss`, which averages over the *initial* deltas. -/
def specTrailingAvgLoss (prices : List ℚ) : ℚ :=
  let period := min 14 (prices.length - 1)
  let allChanges := (List.range (prices.length - 1)).map
    (fun i => prices.getD (i+1) 0 - prices.getD i 0)
  let trailing := allChanges.drop (allChanges.length - period)
  ((trailing.map (fun c => if 0 < c then 0 else |c|)).sum) / (period : ℚ)

/-!
## Helper lemmas (shared)
-/

theorem jsGtOpt_eq_true_iff (a : Option ℚ) (b : ℚ) :
    jsGtOpt a b = true ↔ ∃ x, a = some x ∧ b < x := by
  cases a <;> simp [jsGtOpt]

theorem jsGeOpt_eq_true_iff (a : Option ℚ) (b : ℚ) :
    jsGeOpt a b = true ↔ ∃ x, a = some x ∧ b ≤ x := by
  cases a <;> simp [jsGeOpt]

theorem shouldEnter_marketSignal_false (s : MarketSignal) :
    shouldEnterTradeFromSignal (marketSignalAsTradingSignal s) = false := by
  simp [shouldEnterTradeFromSignal, marketSignalAsTradingSignal, jsTruthy]


/-!
## Claim theorems
-/

/-- C1 (counterexample): the claim says a Long signal is produced exactly when
`long_confidence ≥ 65` with long strictly above short.  But for the confidence
score with `overall = 0.5` — long and short confidence both 50 on the 0-100
scale, tied and far below 65 — `generateTradingSignal` still emits a
BUY/LONG signal (its real threshold is `overall > 0.3`). -/
theorem C1_counterexample :
    generateTradingSignal
        { overall := 1/2, momentum := 1/2, volume := 1/2, trend := 1/2, volatility := 1/2 }
        116000 0
      = some { type := SignalType.BUY, direction := "LONG", strength := 1/2,
               confidence := 50, reason := "Positive confidence signal", timestamp := 0 }
    ∧ (50 : ℚ) < 65 := by
  refine ⟨?_, by norm_num⟩
  unfold generateTradingSignal
  rw [if_pos (by norm_num)]
  norm_num [jsRound]

/-- C1 (amended): the actual entry logic.  `generateTradingSignal` emits
BUY/LONG iff `overall > 0.3` and SELL/SHORT iff `overall < 0.25` (no signal
iff `0.25 ≤ overall ≤ 0.3`); the first-revision backtest entry path
`generateEntrySignal` picks LONG iff the (possibly absent) `longConfidence`
property strictly exceeds 65, else SHORT iff `shortConfidence` strictly
exceeds 65, LONG taking precedence on ties; and the second-revision filter
`shouldEnterTradeFromSignal` is always false on the `MarketSignal` the
pipeline feeds it, because `isActive` is not one of its properties. -/
theorem C1_signal_thresholds :
    ∀ (c : ConfidenceScoreTE) (price : ℚ) (now : ℤ) (conf : DynConfidence)
      (candle : Candle) (params : BTParams) (s : MarketSignal),
      ((generateTradingSignal c price now).map MarketSignal.type = some SignalType.BUY
        ↔ 3/10 < c.overall)
    ∧ ((generateTradingSignal c price now).map MarketSignal.type = some SignalType.SELL
        ↔ c.overall < 1/4)
    ∧ (generateTradingSignal c price now = none ↔ c.overall ≤ 3/10 ∧ 1/4 ≤ c.overall)
    ∧ ((generateEntrySignal conf candle params).map Prod.fst = some Side.LONG
        ↔ ∃ x, conf.longConfidence = some x ∧ 65 < x)
    ∧ ((generateEntrySignal conf candle params).map Prod.fst = some Side.SHORT
        ↔ (jsGtOpt conf.longConfidence 65 = false
            ∧ ∃ y, conf.shortConfidence = some y ∧ 65 < y))
    ∧ shouldEnterTradeFromSignal (marketSignalAsTradingSignal s) = false := by
  intro c price now conf candle params s
  refine ⟨?_, ?_, ?_, ?_, ?_, shouldEnter_marketSignal_false s⟩
  · unfold generateTradingSignal
    split_ifs with h1 h2
    · exact ⟨fun _ => h1, fun _ => rfl⟩
    · exact ⟨fun h => absurd h (by simp), fun h => absurd h h1⟩
    · exact ⟨fun h => absurd h (by simp), fun h => absurd h h1⟩
  · unfold generateTradingSignal
    split_ifs with h1 h2
    · exact ⟨fun h => absurd h (by simp), fun h => absurd h (by linarith)⟩
    · exact ⟨fun _ => h2, fun _ => rfl⟩
    · exact ⟨fun h => absurd h (by simp), fun h => absurd h h2⟩
  · unfold generateTradingSignal
    split_ifs with h1 h2
    · exact ⟨fun h => absurd h (by simp), fun hc => absurd h1 (not_lt.mpr hc.1)⟩
    · exact ⟨fun h => absurd h (by simp), fun hc => absurd h2 (not_lt.mpr hc.2)⟩
    · exact ⟨fun _ => ⟨not_lt.mp h1, not_lt.mp h2⟩, fun _ => rfl⟩
  · unfold generateEntrySignal
    split_ifs with h1 h2
    · exact ⟨fun _ => (jsGtOpt_eq_true_iff _ _).mp h1, fun _ => rfl⟩
    · exact ⟨fun h => absurd h (by simp),
        fun hex => absurd ((jsGtOpt_eq_true_iff _ _).mpr hex) h1⟩
    · exact ⟨fun h => absurd h (by simp),
        fun hex => absurd ((jsGtOpt_eq_true_iff _ _).mpr hex) h1⟩
  · unfold generateEntrySignal
    split_ifs with h1 h2
    · refine ⟨fun h => absurd h (by simp), ?_⟩
      rintro ⟨hf, -⟩
      rw [h1] at hf
      cases hf
    · refine ⟨fun _ => ⟨?_, (jsGtOpt_eq_true_iff _ _).mp h2⟩, fun _ => rfl⟩
      revert h1
      cases jsGtOpt conf.longConfidence 65 <;> simp
    · refine ⟨fun h => absurd h (by simp), ?_⟩
      rintro ⟨-, hex⟩
      exact absurd ((jsGtOpt_eq_true_iff _ _).mpr hex) h2

/-- C6: with an empty closed-trade list, `calculateBacktestStats` takes its
early return and every numeric field of the aggregate record is exactly 0 —
no NaN, no Infinity, no error — for every initial/final capital, every equity
curve and every square-root routine. -/
theorem C6_zero_trades_stats :
    ∀ (sqrtq : ℚ → ℚ) (initialCapital finalCapital : ℚ) (equityCurve : List EquityPoint),
      calculateBacktestStats sqrtq [] initialCapital finalCapital equityCurve =
        { totalTrades := 0, winningTrades := 0, losingTrades := 0, winRate := 0, avgWin := 0,
          avgLoss := 0, profitFactor := 0, sharpeRatio := 0, maxDrawdown := 0, totalReturn := 0,
          calmarRatio := 0, averageHoldingPeriod := 0 } := by
  intro sqrtq initialCapital finalCapital equityCurve
  rfl

/-- C10: `calculateConfidenceScore` is total and clamped — fewer than 10
price points yields the constant all-0.2 score whatever the prices, volumes,
weights and square-root routine; with at least 10 points the overall score
always lands in `[0.05, 0.95]`. -/
theorem C10_confidence_total :
    ∀ (w : StrategyWeights) (sqrtq : ℚ → ℚ) (prices volumes : List ℚ),
      (prices.length < 10 →
        calculateConfidenceScore w sqrtq prices volumes = lowDataConfidenceScore)
    ∧ (10 ≤ prices.length →
        1/20 ≤ (calculateConfidenceScore w sqrtq prices volumes).overall
        ∧ (calculateConfidenceScore w sqrtq prices volumes).overall ≤ 19/20) := by
  intro w sqrtq prices volumes
  constructor
  · intro h
    unfold calculateConfidenceScore
    rw [if_pos h]
    rfl
  · intro h
    have hn : ¬ prices.length < 10 := by omega
    unfold calculateConfidenceScore
    rw [if_neg hn]
    exact ⟨le_min (by norm_num) (le_max_left _ _), min_le_left _ _⟩

/-- C10 (witness): the two branches at concrete inputs — 3 points give the
constant 0.2 record, 10 points land the overall score inside [0.05, 0.95]. -/
theorem C10_witness :
    calculateConfidenceScore defaultWeights (fun _ => 0) [1, 2, 3] [1]
      = lowDataConfidenceScore
    ∧ 1/20 ≤ (calculateConfidenceScore defaultWeights (fun _ => 0)
        (List.replicate 10 100) (List.replicate 10 1)).overall
    ∧ (calculateConfidenceScore defaultWeights (fun _ => 0)
        (List.replicate 10 100) (List.replicate 10 1)).overall ≤ 19/20 := by
  refine ⟨(C10_confidence_total defaultWeights (fun _ => 0) [1, 2, 3] [1]).1 (by decide),
    ((C10_confidence_total defaultWeights (fun _ => 0)
      (List.replicate 10 100) (List.replicate 10 1)).2 (by decide)).1,
    ((C10_confidence_total defaultWeights (fun _ => 0)
      (List.replicate 10 100) (List.replicate 10 1)).2 (by decide)).2⟩

/-- C4: the per-step exit check.  For a Long with both levels present: close
at the stop-loss *price* whenever `close ≤ stop_loss` — even if the
take-profit condition also holds on the same bar (stop-loss precedence);
close at the take-profit price when `stop_loss < close` and
`close ≥ take_profit`; no exit strictly between the levels.  All three
mirrored for Short. -/
theorem C4_exit_conditions :
    ∀ (entryTime : ℤ) (entryPrice quantity sl tp : ℚ) (candle : Candle),
      (candle.close ≤ sl →
        checkExitConditions
            { entryTime := entryTime, entryPrice := entryPrice, side := some Side.LONG,
              quantity := quantity, stopLoss := some sl, takeProfit := some tp } candle
          = some { exitPrice := sl, pnl := (sl - entryPrice) * quantity,
                   reason := ExitReason.STOP_LOSS })
    ∧ (sl < candle.close → tp ≤ candle.close →
        checkExitConditions
            { entryTime := entryTime, entryPrice := entryPrice, side := some Side.LONG,
              quantity := quantity, stopLoss := some sl, takeProfit := some tp } candle
          = some { exitPrice := tp, pnl := (tp - entryPrice) * quantity,
                   reason := ExitReason.TAKE_PROFIT })
    ∧ (sl < candle.close → candle.close < tp →
        checkExitConditions
            { entryTime := entryTime, entryPrice := entryPrice, side := some Side.LONG,
              quantity := quantity, stopLoss := some sl, takeProfit := some tp } candle
          = none)
    ∧ (sl ≤ candle.close →
        checkExitConditions
            { entryTime := entryTime, entryPrice := entryPrice, side := some Side.SHORT,
              quantity := quantity, stopLoss := some sl, takeProfit := some tp } candle
          = some { exitPrice := sl, pnl := (entryPrice - sl) * quantity,
                   reason := ExitReason.STOP_LOSS })
    ∧ (candle.close < sl → candle.close ≤ tp →
        checkExitConditions
            { entryTime := entryTime, entryPrice := entryPrice, side := some Side.SHORT,
              quantity := quantity, stopLoss := some sl, takeProfit := some tp } candle
          = some { exitPrice := tp, pnl := (entryPrice - tp) * quantity,
                   reason := ExitReason.TAKE_PROFIT })
    ∧ (candle.close < sl → tp < candle.close →
        checkExitConditions
            { entryTime := entryTime, entryPrice := entryPrice, side := some Side.SHORT,
              quantity := quantity, stopLoss := some sl, takeProfit := some tp } candle
          = none) := by
  intro entryTime entryPrice quantity sl tp candle
  refine ⟨?_, ?_, ?_, ?_, ?_, ?_⟩
  · intro h
    simp [checkExitConditions, h]
  · intro h1 h2
    simp [checkExitConditions, not_le.mpr h1, h2]
  · intro h1 h2
    simp [checkExitConditions, not_le.mpr h1, not_le.mpr h2]
  · intro h
    simp [checkExitConditions, h]
  · intro h1 h2
    simp [checkExitConditions, not_le.mpr h1, h2]
  · intro h1 h2
    simp [checkExitConditions, not_le.mpr h1, not_le.mpr h2]

/-- C4 (witness): concrete exits, including the same-bar tie-break — a Long
entered at 50 with stop-loss 100 *above* take-profit 90 and a close of 95
satisfies both exit conditions at once and closes at the stop-loss; plus a
regular Long take-profit and a Short stop-loss. -/
theorem C4_witness :
    checkExitConditions
        { entryTime := 0, entryPrice := 50, side := some Side.LONG, quantity := 2,
          stopLoss := some 100, takeProfit := some 90 }
        { timestamp := 1, open_ := 95, high := 95, low := 95, close := 95, volume := 0 }
      = some { exitPrice := 100, pnl := 100, reason := ExitReason.STOP_LOSS }
    ∧ checkExitConditions
        { entryTime := 0, entryPrice := 100, side := some Side.LONG, quantity := 1,
          stopLoss := some 98, takeProfit := some 106 }
        { timestamp := 1, open_ := 107, high := 107, low := 107, close := 107, volume := 0 }
      = some { exitPrice := 106, pnl := 6, reason := ExitReason.TAKE_PROFIT }
    ∧ checkExitConditions
        { entryTime := 0, entryPrice := 100, side := some Side.SHORT, quantity := 3,
          stopLoss := some 103, takeProfit := some 94 }
        { timestamp := 1, open_ := 104, high := 104, low := 104, close := 104, volume := 0 }
      = some { exitPrice := 103, pnl := -9, reason := ExitReason.STOP_LOSS } := by
  refine ⟨?_, ?_, ?_⟩
  · have h := (C4_exit_conditions 0 50 2 100 90
      { timestamp := 1, open_ := 95, high := 95, low := 95, close := 95, volume := 0 }).1
      (by norm_num)
    rw [h]
    norm_num
  · have h := ((C4_exit_conditions 0 100 1 98 106
      { timestamp := 1, open_ := 107, high := 107, low := 107, close := 107, volume := 0 }).2.1)
      (by norm_num) (by norm_num)
    rw [h]
    norm_num
  · have h := ((C4_exit_conditions 0 100 3 103 94
      { timestamp := 1, open_ := 104, high := 104, low := 104, close := 104, volume := 0 }).2.2.2.1)
      (by norm_num)
    rw [h]
    norm_num

/-- Concrete 3-point price series for the C2 counterexample. -/
def c2PriceData : List PricePoint :=
  [{ timestamp := 0, close := 100 }, { timestamp := 1, close := 101 },
   { timestamp := 2, close := 102 }]

/-- C2 (counterexample): with only 3 price points — fewer than 200, indeed
fewer than the engine's own `MIN_DATA_POINTS = 5` — `calculateTechnicalIndicators`
does *not* signal an insufficient-data error: it returns a result, and that
result is exactly the fabricated mock indicator set. -/
theorem C2_counterexample :
    calculateTechnicalIndicators c2PriceData (1/2)
      = some (generateMockIndicators c2PriceData (1/2))
    ∧ (calculateTechnicalIndicators c2PriceData (1/2)).isSome = true
    ∧ (generateMockIndicators c2PriceData (1/2)).rsi = 50 := by
  refine ⟨rfl, rfl, ?_⟩
  norm_num [generateMockIndicators, c2PriceData, jsOrQ]

/-- C2 (amended): the indicator calculator never signals an error: it returns
a value on *every* input, and on fewer than `MIN_DATA_POINTS = 5` points that
value is the randomized mock indicator set (a silent fabricated substitute,
not an `InsufficientData` failure); between 5 and 199 points it computes
adaptive indicators rather than failing.  The only insufficient-data error in
this pipeline is the backtest orchestrator's, which rejects exactly the runs
given fewer than 250 candles. -/
theorem C2_insufficient_data_behavior :
    ∀ (priceData : List PricePoint) (rand : ℚ),
      ((calculateTechnicalIndicators priceData rand).isSome = true)
    ∧ (priceData.length < 5 →
        calculateTechnicalIndicators priceData rand
          = some (generateMockIndicators priceData rand))
    ∧ ∀ (α : Type) (params : BTParams) (data : List Candle) (sqrtq : ℚ → ℚ)
        (analyze : List ℚ → List ℚ → ℚ → α) (now : ℤ),
        (data.length < 250 ↔
          runBacktest params data sqrtq analyze now = Except.error insufficientDataMessage) := by
  intro priceData rand
  refine ⟨?_, ?_, ?_⟩
  · unfold calculateTechnicalIndicators
    split_ifs <;> rfl
  · intro h
    unfold calculateTechnicalIndicators MIN_DATA_POINTS
    rw [if_pos h]
  · intro α params data sqrtq analyze now
    constructor
    · intro h
      unfold runBacktest
      rw [if_pos h]
    · intro h
      by_contra hn
      unfold runBacktest at h
      rw [if_neg hn] at h
      exact Except.noConfusion h

/-- C2 (witness): one point triggers the mock substitution; an empty candle
list triggers the backtest's insufficient-data rejection. -/
theorem C2_witness :
    calculateTechnicalIndicators [{ timestamp := 0, close := 1 }] 0
      = some (generateMockIndicators [{ timestamp := 0, close := 1 }] 0)
    ∧ runBacktest
        { initialCapital := 10000, riskPerTrade := 2, maxPositions := 3,
          stopLossPercent := 3, takeProfitPercent := 6, strategy := defaultWeights }
        [] (fun _ => 0) (fun _ _ _ => (0 : ℚ)) 0
      = Except.error insufficientDataMessage := by
  constructor
  · exact (C2_insufficient_data_behavior [{ timestamp := 0, close := 1 }] 0).2.1 (by decide)
  · exact ((C2_insufficient_data_behavior [] 0).2.2 ℚ
      { initialCapital := 10000, riskPerTrade := 2, maxPositions := 3,
        stopLossPercent := 3, takeProfitPercent := 6, strategy := defaultWeights }
      [] (fun _ => 0) (fun _ _ _ => (0 : ℚ)) 0).mp (by decide)

/-- C3 (counterexample): an engine-produced confidence score (10 constant
prices; the engine's default weights, which sum exactly to 1) stored by the
routes layer has `longConfidence + shortConfidence = 1`, not 100 — the pair
lives on the 0-1 scale. -/
theorem C3_counterexample :
    (defaultWeights.momentum + defaultWeights.volume + defaultWeights.trend
      + defaultWeights.volatility = 1)
    ∧ ((storedConfidenceUpdate
          (calculateConfidenceScore defaultWeights (fun _ => 0)
            (List.replicate 10 100) (List.replicate 10 1)) 0).longConfidence
        + (storedConfidenceUpdate
            (calculateConfidenceScore defaultWeights (fun _ => 0)
              (List.replicate 10 100) (List.replicate 10 1)) 0).shortConfidence
        = 1)
    ∧ (1 : ℚ) ≠ 100 := by
  refine ⟨by norm_num [defaultWeights], ?_, by norm_num⟩
  unfold storedConfidenceUpdate
  ring

/-- C3 (amended): for every input, the stored pair satisfies
`longConfidence + shortConfidence = 1` exactly (0-1 scale, not 100), and with
at least 10 prices `longConfidence` equals the clamp into `[0.05, 0.95]` of
the weighted component sum `Σ componentᵢ · weightᵢ` — with no `× 100`
rescaling. -/
theorem C3_confidence_pair :
    ∀ (w : StrategyWeights) (sqrtq : ℚ → ℚ) (prices volumes : List ℚ) (now : ℤ),
      ((storedConfidenceUpdate (calculateConfidenceScore w sqrtq prices volumes)
          now).longConfidence
        + (storedConfidenceUpdate (calculateConfidenceScore w sqrtq prices volumes)
            now).shortConfidence = 1)
    ∧ (10 ≤ prices.length →
        (storedConfidenceUpdate (calculateConfidenceScore w sqrtq prices volumes)
            now).longConfidence
          = min (19/20) (max (1/20)
              ((calculateConfidenceScore w sqrtq prices volumes).momentum * w.momentum
              + (calculateConfidenceScore w sqrtq prices volumes).trend * w.trend
              + (calculateConfidenceScore w sqrtq prices volumes).volume * w.volume
              + (calculateConfidenceScore w sqrtq prices volumes).volatility * w.volatility))) := by
  intro w sqrtq prices volumes now
  constructor
  · unfold storedConfidenceUpdate
    ring
  · intro h
    have hn : ¬ prices.length < 10 := by omega
    unfold storedConfidenceUpdate calculateConfidenceScore
    rw [if_neg hn]

/-- C3 (witness): the amended statement at the concrete 10-point input. -/
theorem C3_witness :
    ((storedConfidenceUpdate
        (calculateConfidenceScore defaultWeights (fun _ => 0)
          (List.replicate 10 100) (List.replicate 10 1)) 7).longConfidence
      + (storedConfidenceUpdate
          (calculateConfidenceScore defaultWeights (fun _ => 0)
            (List.replicate 10 100) (List.replicate 10 1)) 7).shortConfidence = 1)
    ∧ (storedConfidenceUpdate
        (calculateConfidenceScore defaultWeights (fun _ => 0)
          (List.replicate 10 100) (List.replicate 10 1)) 7).longConfidence
      = min (19/20) (max (1/20)
          ((calculateConfidenceScore defaultWeights (fun _ => 0)
              (List.replicate 10 100) (List.replicate 10 1)).momentum
                * defaultWeights.momentum
          + (calculateConfidenceScore defaultWeights (fun _ => 0)
              (List.replicate 10 100) (List.replicate 10 1)).trend * defaultWeights.trend
          + (calculateConfidenceScore defaultWeights (fun _ => 0)
              (List.replicate 10 100) (List.replicate 10 1)).volume * defaultWeights.volume
          + (calculateConfidenceScore defaultWeights (fun _ => 0)
              (List.replicate 10 100) (List.replicate 10 1)).volatility
                * defaultWeights.volatility)) := by
  exact ⟨(C3_confidence_pair defaultWeights (fun _ => 0)
      (List.replicate 10 100) (List.replicate 10 1) 7).1,
    (C3_confidence_pair defaultWeights (fun _ => 0)
      (List.replicate 10 100) (List.replicate 10 1) 7).2 (by decide)⟩

/-- The average gain of the code's RSI window is non-negative. -/
theorem rsiAvgGain_nonneg (prices : List ℚ) : 0 ≤ rsiAvgGain prices := by
  unfold rsiAvgGain
  refine div_nonneg (List.sum_nonneg ?_) (by positivity)
  intro x hx
  rcases List.mem_map.mp hx with ⟨c, -, rfl⟩
  split_ifs with h
  · exact le_of_lt h
  · exact le_rfl

/-- The average loss of the code's RSI window is non-negative. -/
theorem rsiAvgLoss_nonneg (prices : List ℚ) : 0 ≤ rsiAvgLoss prices := by
  unfold rsiAvgLoss
  refine div_nonneg (List.sum_nonneg ?_) (by positivity)
  intro x hx
  rcases List.mem_map.mp hx with ⟨c, -, rfl⟩
  split_ifs with h
  · exact le_rfl
  · exact abs_nonneg c

/-- Concrete 16-point series for the C7 counterexample: one early loss, then
14 consecutive gains, so the *trailing* 14 deltas contain no loss while the
code's window (the *initial* 14 deltas) does. -/
def c7Prices : List ℚ := [2, 1, 2, 3, 4, 5, 6, 7, 8, 9, 10, 11, 12, 13, 14, 15]

/-- C7 (counterexample): two failures of the claim as stated.  (a) On
`c7Prices` the average loss over the *trailing* 14 deltas is 0, yet the
computed RSI is 650/7 ≈ 92.86 ≠ 100, because the code averages over the
*initial* 14 deltas (`for i = 1..period`), not the trailing ones.  (b) On the
two-point series `[1, 1]` the window's average loss is 0 but RSI is the
neutral 50, by the `period < 2` early return. -/
theorem C7_counterexample :
    calculateRSI c7Prices = 650/7
    ∧ specTrailingAvgLoss c7Prices = 0
    ∧ (650/7 : ℚ) ≠ 100
    ∧ calculateRSI [1, 1] = 50
    ∧ rsiAvgLoss [1, 1] = 0
    ∧ (50 : ℚ) ≠ 100 := by
  refine ⟨?_, ?_, by norm_num, ?_, ?_, by norm_num⟩
  · norm_num [calculateRSI, rsiAvgLoss, rsiAvgGain, rsiChanges, rsiPeriod, RSI_PERIOD,
      c7Prices, List.range_succ]
  · norm_num [specTrailingAvgLoss, c7Prices, List.range_succ]
  · norm_num [calculateRSI, rsiPeriod, RSI_PERIOD]
  · norm_num [rsiAvgLoss, rsiChanges, rsiPeriod, RSI_PERIOD, List.range_succ]

/-- C7 (amended): for every price series the computed RSI lies in [0, 100];
for series of length at least 3 (adaptive period ≥ 2), RSI = 100 iff the
average loss over the code's window — the *initial* `min(14, n-1)` deltas —
is 0; series shorter than 3 points always get the neutral RSI 50, regardless
of their average loss. -/
theorem C7_rsi_bounds :
    ∀ prices : List ℚ,
      (0 ≤ calculateRSI prices ∧ calculateRSI prices ≤ 100)
    ∧ (3 ≤ prices.length → (calculateRSI prices = 100 ↔ rsiAvgLoss prices = 0))
    ∧ (prices.length < 3 → calculateRSI prices = 50) := by
  intro prices
  have hg := rsiAvgGain_nonneg prices
  have hl := rsiAvgLoss_nonneg prices
  refine ⟨?_, ?_, ?_⟩
  · unfold calculateRSI
    split_ifs with h1 h2
    · norm_num
    · norm_num
    · have hlpos : 0 < rsiAvgLoss prices := lt_of_le_of_ne hl (Ne.symm h2)
      have hrs : 0 ≤ rsiAvgGain prices / rsiAvgLoss prices := div_nonneg hg hl
      have hdenom : (0:ℚ) < 1 + rsiAvgGain prices / rsiAvgLoss prices := by linarith
      have hfrac_pos : (0:ℚ) < 100 / (1 + rsiAvgGain prices / rsiAvgLoss prices) :=
        div_pos (by norm_num) hdenom
      have hfrac_le : 100 / (1 + rsiAvgGain prices / rsiAvgLoss prices) ≤ 100 :=
        div_le_self (by norm_num) (by linarith)
      constructor <;> linarith
  · intro h
    have hp : ¬ rsiPeriod prices < 2 := by
      unfold rsiPeriod RSI_PERIOD
      omega
    unfold calculateRSI
    rw [if_neg hp]
    by_cases hz : rsiAvgLoss prices = 0
    · rw [if_pos hz]
      simp [hz]
    · rw [if_neg hz]
      constructor
      · intro heq
        exfalso
        have hlpos : 0 < rsiAvgLoss prices := lt_of_le_of_ne hl (Ne.symm hz)
        have hrs : 0 ≤ rsiAvgGain prices / rsiAvgLoss prices := div_nonneg hg hl
        have hdenom : (0:ℚ) < 1 + rsiAvgGain prices / rsiAvgLoss prices := by linarith
        have hfrac_pos : (0:ℚ) < 100 / (1 + rsiAvgGain prices / rsiAvgLoss prices) :=
          div_pos (by norm_num) hdenom
        linarith
      · intro hcontra
        exact absurd hcontra hz
  · intro h
    have hp : rsiPeriod prices < 2 := by
      unfold rsiPeriod RSI_PERIOD
      omega
    unfold calculateRSI
    rw [if_pos hp]

/-- C7 (witness): the amended statement at concrete inputs — an increasing
3-point series (RSI = 100, zero window loss) and a 1-point series (RSI 50). -/
theorem C7_witness :
    (0 ≤ calculateRSI [1, 2, 3] ∧ calculateRSI [1, 2, 3] ≤ 100)
    ∧ (calculateRSI [1, 2, 3] = 100 ↔ rsiAvgLoss [1, 2, 3] = 0)
    ∧ calculateRSI [5] = 50 := by
  exact ⟨(C7_rsi_bounds [1, 2, 3]).1,
    (C7_rsi_bounds [1, 2, 3]).2.1 (by decide),
    (C7_rsi_bounds [5]).2.2 (by decide)⟩

/-- Every trade the exit sweep emits copies its fields from one of the open
positions: sizes fixed at entry are never resized at exit. -/
theorem processExits_trades_from_positions :
    ∀ (positions : List Position) (candle : Candle) (t : BacktestTrade),
      t ∈ (processExits positions candle).2 →
      ∃ p, p ∈ positions ∧ t.quantity = p.quantity ∧ t.entryPrice = p.entryPrice
        ∧ t.entryTime = p.entryTime := by
  intro positions
  induction positions with
  | nil =>
    intro candle t ht
    simp [processExits] at ht
  | cons p rest ih =>
    intro candle t ht
    rcases hce : checkExitConditions p candle with - | e
    · rw [processExits, hce] at ht
      rcases ih candle t ht with ⟨q, hq, h1, h2, h3⟩
      exact ⟨q, List.mem_cons_of_mem _ hq, h1, h2, h3⟩
    · rw [processExits, hce] at ht
      rcases List.mem_append.mp ht with hmem | hmem
      · rcases ih candle t hmem with ⟨q, hq, h1, h2, h3⟩
        exact ⟨q, List.mem_cons_of_mem _ hq, h1, h2, h3⟩
      · rcases List.mem_singleton.mp hmem with rfl
        exact ⟨p, List.mem_cons_self _ _, rfl, rfl, rfl⟩

/-- C8 (counterexample): the backtest position sizer has *no* minimum-notional
floor.  With capital 1, price 100, risk 2% and stop-loss 3%, the backtest
sizer yields a notional of 2/3 — far below the $10 minimum that the live
`TradeExecutionEngine` sizer enforces on the very same economics. -/
theorem C8_counterexample :
    calculatePositionSize 1 100 2 3 * 100 = 2/3
    ∧ (2/3 : ℚ) < 10
    ∧ 10 ≤ calculatePositionSizeExec 1 2 100 97 * 100 := by
  refine ⟨?_, by norm_num, ?_⟩
  · norm_num [calculatePositionSize]
  · norm_num [calculatePositionSizeExec, abs_of_pos]

/-- C8 (amended): in the backtesting engine,
`quantity = (capital · riskPerTrade%) / (price · stopLossPercent%)` exactly —
equivalently, the risked amount `quantity · price · slp%` equals the risk
budget — with *no* floor (the counterexample shows notional 2/3 < 10).  The
minimum-notional floor exists only in the live `TradeExecutionEngine` sizer,
whose result times the entry price is always at least $10 (when the stop is
non-zero and distinct from entry, the guards that otherwise return 0).  And a
position's quantity/entry price/entry time are fixed at entry: every trade
the exit sweep emits carries them unchanged from the entering position. -/
theorem C8_position_sizing :
    ∀ (capital price riskPercent stopLossPercent totalCapital riskPerTrade
        entryPrice stopLoss : ℚ),
      (price ≠ 0 → stopLossPercent ≠ 0 →
        calculatePositionSize capital price riskPercent stopLossPercent
            * (price * (stopLossPercent / 100))
          = capital * (riskPercent / 100))
    ∧ (stopLoss ≠ 0 → entryPrice ≠ stopLoss → 0 < entryPrice →
        10 ≤ calculatePositionSizeExec totalCapital riskPerTrade entryPrice stopLoss
            * entryPrice)
    ∧ (∀ (positions : List Position) (candle : Candle) (t : BacktestTrade),
        t ∈ (processExits positions candle).2 →
        ∃ p, p ∈ positions ∧ t.quantity = p.quantity ∧ t.entryPrice = p.entryPrice
          ∧ t.entryTime = p.entryTime) := by
  intro capital price riskPercent stopLossPercent totalCapital riskPerTrade entryPrice stopLoss
  refine ⟨?_, ?_, processExits_trades_from_positions⟩
  · intro hp hs
    unfold calculatePositionSize
    exact div_mul_cancel₀ _ (mul_ne_zero hp (div_ne_zero hs (by norm_num)))
  · intro hsl hne hE
    have habs : |entryPrice - stopLoss| ≠ 0 := abs_ne_zero.mpr (sub_ne_zero.mpr hne)
    rw [calculatePositionSizeExec, if_neg hsl]
    show 10 ≤ (if |entryPrice - stopLoss| = 0 then 0
      else max (totalCapital * (riskPerTrade / 100) / |entryPrice - stopLoss|)
        (10 / entryPrice)) * entryPrice
    rw [if_neg habs]
    have h10 : (10:ℚ) / entryPrice * entryPrice = 10 :=
      div_mul_cancel₀ _ (ne_of_gt hE)
    calc (10:ℚ) = 10 / entryPrice * entryPrice := h10.symm
      _ ≤ max (totalCapital * (riskPerTrade / 100) / |entryPrice - stopLoss|)
            (10 / entryPrice) * entryPrice :=
          mul_le_mul_of_nonneg_right (le_max_right _ _) hE.le

/-- C8 (witness): the amended statement at concrete inputs — the backtest
risk-budget identity, the live-engine floor, and an exit trade carrying the
entering position's quantity unchanged. -/
theorem C8_witness :
    calculatePositionSize 1 100 2 3 * (100 * ((3:ℚ) / 100)) = 1 * ((2:ℚ) / 100)
    ∧ 10 ≤ calculatePositionSizeExec 1 2 100 97 * 100
    ∧ ∃ p, p ∈ [({ entryTime := 0, entryPrice := 50, side := some Side.LONG, quantity := 2,
                    stopLoss := some 100, takeProfit := some 90 } : Position)]
        ∧ (mkClosedTrade
            { entryTime := 0, entryPrice := 50, side := some Side.LONG, quantity := 2,
              stopLoss := some 100, takeProfit := some 90 } 1 100 100
            ExitReason.STOP_LOSS).quantity = p.quantity
        ∧ (mkClosedTrade
            { entryTime := 0, entryPrice := 50, side := some Side.LONG, quantity := 2,
              stopLoss := some 100, takeProfit := some 90 } 1 100 100
            ExitReason.STOP_LOSS).entryPrice = p.entryPrice
        ∧ (mkClosedTrade
            { entryTime := 0, entryPrice := 50, side := some Side.LONG, quantity := 2,
              stopLoss := some 100, takeProfit := some 90 } 1 100 100
            ExitReason.STOP_LOSS).entryTime = p.entryTime := by
  refine ⟨(C8_position_sizing 1 100 2 3 1 2 100 97).1 (by norm_num) (by norm_num),
    (C8_position_sizing 1 100 2 3 1 2 100 97).2.1 (by norm_num) (by norm_num) (by norm_num),
    (C8_position_sizing 1 100 2 3 1 2 100 97).2.2
      [{ entryTime := 0, entryPrice := 50, side := some Side.LONG, quantity := 2,
         stopLoss := some 100, takeProfit := some 90 }]
      { timestamp := 1, open_ := 95, high := 95, low := 95, close := 95, volume := 0 }
      _ ?_⟩
  rw [processExits, processExits]
  norm_num [checkExitConditions]

/-- The exit sweep never grows the open-position list. -/
theorem processExits_fst_length_le (positions : List Position) (candle : Candle) :
    (processExits positions candle).1.length ≤ positions.length := by
  induction positions with
  | nil => simp [processExits]
  | cons p rest ih =>
    rcases hce : checkExitConditions p candle with - | e
    · rw [processExits, hce]
      simpa using Nat.succ_le_succ ih
    · rw [processExits, hce]
      exact Nat.le_succ_of_le ih

/-- The entry block never actually adds a position: the signal the pipeline
produces is a `MarketSignal`, which has no `isActive` property, so
`shouldEnterTradeFromSignal` is false on it and the push is unreachable. -/
theorem backtestEntry_eq_remaining {α : Type} (params : BTParams) (sqrtq : ℚ → ℚ)
    (analyze : List ℚ → List ℚ → ℚ → α) (now : ℤ) (prices volumes : List ℚ)
    (currentCandle : Candle) (capital : ℚ) (remaining : List Position) :
    backtestEntry params sqrtq analyze now prices volumes currentCandle capital remaining
      = remaining := by
  unfold backtestEntry
  rcases hts : generateTradingSignal
      (enhanceWithML (calculateConfidenceScore params.strategy sqrtq prices volumes)
        (analyze prices volumes currentCandle.close))
      currentCandle.close now with - | ts
  · split_ifs <;> rfl
  · simp [shouldEnter_marketSignal_false ts]

/-- Projection: the open positions after the iteration tail are exactly the
`afterEntry` list it was given. -/
theorem backtestStepUpdate_openPositions (st : BTState) (currentCandle : Candle)
    (i dataLen : ℕ) (capital : ℚ) (afterEntry : List Position)
    (newTrades : List BacktestTrade) :
    (backtestStepUpdate st currentCandle i dataLen capital afterEntry
        newTrades).openPositions = afterEntry := rfl

/-- One loop iteration preserves the position bound: exits only shrink the
list and the entry block respects the `maxPositions` gate. -/
theorem backtestStep_length_le {α : Type} (params : BTParams) (data : List Candle)
    (sqrtq : ℚ → ℚ) (analyze : List ℚ → List ℚ → ℚ → α) (now : ℤ) (st : BTState) (i : ℕ)
    (h : st.openPositions.length ≤ params.maxPositions) :
    (backtestStep params data sqrtq analyze now st i).openPositions.length
      ≤ params.maxPositions := by
  unfold backtestStep
  split_ifs with h1
  · exact h
  · rw [backtestStepUpdate_openPositions, backtestEntry_eq_remaining]
    exact le_trans (processExits_fst_length_le st.openPositions (btCandleAt data i)) h

/-- The position bound holds after folding any index list. -/
theorem backtestFold_length_le {α : Type} (params : BTParams) (data : List Candle)
    (sqrtq : ℚ → ℚ) (analyze : List ℚ → List ℚ → ℚ → α) (now : ℤ) :
    ∀ (l : List ℕ) (st : BTState), st.openPositions.length ≤ params.maxPositions →
      (l.foldl (backtestStep params data sqrtq analyze now) st).openPositions.length
        ≤ params.maxPositions := by
  intro l
  induction l with
  | nil => intro st h; exact h
  | cons i rest ih =>
    intro st h
    rw [List.foldl_cons]
    exact ih _ (backtestStep_length_le params data sqrtq analyze now st i h)

/-- C5: throughout every backtest run — after every prefix of the per-candle
loop — the number of simultaneously open positions never exceeds
`maxPositions`.  Within each `backtestStep`, exits (`processExits`) are
applied before the entry block by construction, and `backtestEntry` pushes a
position only under the `openPositions.length < maxPositions` gate, so the
bound is invariant from the empty initial state. -/
theorem C5_max_positions_invariant :
    ∀ (α : Type) (params : BTParams) (data : List Candle) (sqrtq : ℚ → ℚ)
      (analyze : List ℚ → List ℚ → ℚ → α) (now : ℤ) (k : ℕ),
      (((backtestIndices data).take k).foldl (backtestStep params data sqrtq analyze now)
          (initialBacktestState params)).openPositions.length ≤ params.maxPositions := by
  intro α params data sqrtq analyze now k
  exact backtestFold_length_le params data sqrtq analyze now _ _ (Nat.zero_le _)

/-- One loop iteration is independent of the ML oracle and of the wall
clock: they feed only the entry block, whose push is unreachable. -/
theorem backtestStep_oracle_independent {α β : Type} (params : BTParams) (data : List Candle)
    (sqrtq : ℚ → ℚ) (analyze₁ : List ℚ → List ℚ → ℚ → α)
    (analyze₂ : List ℚ → List ℚ → ℚ → β) (now₁ now₂ : ℤ) (st : BTState) (i : ℕ) :
    backtestStep params data sqrtq analyze₁ now₁ st i
      = backtestStep params data sqrtq analyze₂ now₂ st i := by
  unfold backtestStep
  split_ifs with h1
  · rfl
  · rw [backtestEntry_eq_remaining, backtestEntry_eq_remaining]

/-- C9: the backtest core is a deterministic function of its configuration
and candle inputs.  Two runs over the same candles and parameters yield the
*same* full result — closed trades, statistics, equity curve and final
capital — even across different ML-analysis oracles and different wall-clock
values, the only impure inputs the loop consumes. -/
theorem C9_backtest_deterministic :
    ∀ (α β : Type) (params : BTParams) (data : List Candle) (sqrtq : ℚ → ℚ)
      (analyze₁ : List ℚ → List ℚ → ℚ → α) (analyze₂ : List ℚ → List ℚ → ℚ → β)
      (now₁ now₂ : ℤ),
      runBacktest params data sqrtq analyze₁ now₁
        = runBacktest params data sqrtq analyze₂ now₂ := by
  intro α β params data sqrtq analyze₁ analyze₂ now₁ now₂
  have hstep : backtestStep params data sqrtq analyze₁ now₁
      = backtestStep params data sqrtq analyze₂ now₂ :=
    funext fun st => funext fun i =>
      backtestStep_oracle_independent params data sqrtq analyze₁ analyze₂ now₁ now₂ st i
  unfold runBacktest
  rw [hstep]
